import Mathlib

/-!
Shallow embedding of the `geojson-viewer` application
(`src/geojson_viewer/utils.py` and `src/geojson_viewer/server.py`).

Modelling conventions:
* A pandas/geopandas `GeoDataFrame` is modelled column-major: an ordered
  list of column names, an association list from column name to its list
  of cell values, an association list from column name to its dtype name,
  and the coordinate reference system as a string.
* Cell values are an inductive `Cell` (strings, integers, booleans, null);
  geometry values are stored as cells like any other column value.
* Library primitives that the Python code delegates to are passed in as
  explicit function arguments (oracles): `gp.read_file` becomes a
  `ReadSource → Except String GeoDataFrame` argument, `base64.b64decode`
  composed with UTF-8 decoding becomes a `String → Except String String`
  argument, `urlparse` netloc/scheme detection and
  `Path(...).expanduser().absolute()` become `String → Bool` and
  `String → String` arguments, and pandas `astype` casting of one cell to
  a dtype becomes a `Dtype → Cell → Cell` argument.  Python's
  `str.split(",")`, by contrast, is implemented concretely
  (`splitComma`), because claim C8 is about its behaviour.
* Exceptions are `Except String`; Dash's `PreventUpdate` is a dedicated
  constructor of the save handler's result type, distinct from any
  payload.
* The module-global mutable `geo_json_obj` is threaded explicitly: each
  handler takes the current `GeoJsonFile` and returns the new one
  together with its tuple of UI outputs.
-/

/-- Value stored in one cell of the data frame / edit table. -/
inductive Cell
  | str (s : String)
  | int (n : Int)
  | bool (b : Bool)
  | null
deriving DecidableEq, Repr

/-- A pandas dtype, identified by its name (`"int64"`, `"object"`, ...). -/
abbrev Dtype := String

/-- One row of the dash edit table: a dict from column name to cell value. -/
abbrev Row := List (String × Cell)

/-- Column-major model of a `geopandas.GeoDataFrame`. -/
structure GeoDataFrame where
  columns : List String
  colData : List (String × List Cell)
  colDtype : List (String × Dtype)
  crs : String
deriving DecidableEq, Repr

/-- `df[c]`: the values of column `c` (empty if absent). -/
def GeoDataFrame.col (df : GeoDataFrame) (c : String) : List Cell :=
  (df.colData.lookup c).getD []

/-- `df[c].dtype`: the dtype of column `c`. -/
def GeoDataFrame.dtypeOf (df : GeoDataFrame) (c : String) : Dtype :=
  (df.colDtype.lookup c).getD ""

/-- Number of rows (length of the first column's values). -/
def GeoDataFrame.nrows (df : GeoDataFrame) : Nat :=
  match df.colData with
  | [] => 0
  | (_, v) :: _ => v.length

/-- `df[cols].values`: the rows of the selected columns, row-major. -/
def GeoDataFrame.rowsFor (df : GeoDataFrame) (cols : List String) :
    List (List Cell) :=
  (List.range df.nrows).map fun i =>
    cols.map fun c => (df.col c).getD i Cell.null

/-- `df[cols]`: column subselection; raises `KeyError` when a requested
column is missing, as pandas does. -/
def GeoDataFrame.select (df : GeoDataFrame) (cols : List String) :
    Except String GeoDataFrame :=
  if cols.all fun c => df.columns.contains c then
    .ok { columns := cols
          colData := cols.map fun c => (c, df.col c)
          colDtype := cols.map fun c => (c, df.dtypeOf c)
          crs := df.crs }
  else
    .error "KeyError"

/-- The rendered edit-tab view box returned by `GeoJsonFile.to_viewbox`:
either the red "load a file first" placeholder with an empty table shell,
or the editable grid pre-populated with the non-geometry columns. -/
inductive ViewBox
  | placeholder
  | editTable (cols : List String) (data : List Row)
deriving DecidableEq, Repr

/-- `utils.GeoJsonFile`: the single mutable document holder. -/
structure GeoJsonFile where
  data_frame : Option GeoDataFrame := none
deriving DecidableEq, Repr

/-- `GeoJsonFile.dash_data_table_from_dataframe`: project the selected
columns of the loaded frame into row dicts; empty when nothing is loaded. -/
def GeoJsonFile.dash_data_table_from_dataframe (g : GeoJsonFile)
    (cols : List String) : List Row :=
  match g.data_frame with
  | none => []
  | some df => (df.rowsFor cols).map fun line => cols.zip line

/-- `GeoJsonFile.columns`: all column names except `"geometry"`. -/
def GeoJsonFile.columns (g : GeoJsonFile) : List String :=
  match g.data_frame with
  | none => []
  | some df => df.columns.filter fun c => c ≠ "geometry"

/-- `GeoJsonFile.dtypes`: dtype of each non-geometry column, in the order
of `GeoJsonFile.columns` (Python dicts preserve insertion order). -/
def GeoJsonFile.dtypes (g : GeoJsonFile) : List (String × Dtype) :=
  match g.data_frame with
  | none => []
  | some df =>
      (df.columns.filter fun c => c ≠ "geometry").map fun c =>
        (c, df.dtypeOf c)

/-- `GeoJsonFile.to_viewbox`: placeholder when no frame is loaded,
otherwise the editable grid over the non-geometry columns. -/
def GeoJsonFile.to_viewbox (g : GeoJsonFile) : ViewBox :=
  match g.data_frame with
  | none => .placeholder
  | some df =>
      let cols := df.columns.filter fun c => c ≠ "geometry"
      .editTable cols (g.dash_data_table_from_dataframe cols)

/-- Python `str.split(",")` on the character list of the string: splits at
every comma; the empty string yields one empty part. -/
def splitComma : List Char → List (List Char)
  | [] => [[]]
  | c :: rest =>
    if c = ',' then [] :: splitComma rest
    else
      match splitComma rest with
      | [] => [c :: []]
      | h :: t => (c :: h) :: t

/-- `utils.read_upload_content`: `_, content_string = content.split(",")`
unpacks exactly two parts (otherwise Python raises `ValueError`), then
base64-decodes the second part and decodes it as UTF-8 (the composed
`b64decode`/`decode` stdlib primitive is the `decode` oracle). -/
def read_upload_content (decode : String → Except String String)
    (content : String) : Except String String :=
  match (splitComma content.data).map String.mk with
  | [_, content_string] => decode content_string
  | _ => .error "ValueError: unpacking content.split"

/-- Where `utils.load_geojson` points `gp.read_file`: a resolved
path-or-URL string, or an in-memory `io.StringIO` buffer of decoded
upload text. -/
inductive ReadSource
  | path (p : String)
  | buffer (text : String)
deriving DecidableEq, Repr

/-- The `content` value `utils.load_geojson` computes and hands to
`gp.read_file`.  `hasNS c` models `urlparse(c)` having a netloc or scheme;
`absPath` models `Path(c).expanduser().absolute()`.  `content` starts as
`""`, so with both arguments `None` the call is `gp.read_file("")`. -/
def load_geojson_source (hasNS : String → Bool) (absPath : String → String)
    (decode : String → Except String String)
    (inp_path upload_content : Option String) : Except String ReadSource :=
  match inp_path with
  | some p =>
      let c := p.trim
      if hasNS c then .ok (.path c) else .ok (.path (absPath c))
  | none =>
      match upload_content with
      | some u => (read_upload_content decode u).map .buffer
      | none => .ok (.path "")

/-- `utils.load_geojson`: compute the content to read, then delegate to
the `gp.read_file` oracle `readFile`. -/
def load_geojson (hasNS : String → Bool) (absPath : String → String)
    (decode : String → Except String String)
    (readFile : ReadSource → Except String GeoDataFrame)
    (inp_path upload_content : Option String) :
    Except String GeoDataFrame :=
  load_geojson_source hasNS absPath decode inp_path upload_content >>=
    readFile

/-- The spec of a `plotly.express.choropleth` call made by the view
handler: the (coerced) table data frame, the geojson interchange
structure (modelled by the subselected frame that `to_json`/`json.loads`
round-trips), and the keyword arguments. -/
structure ChoroplethSpec where
  data : List Row
  geojson : GeoDataFrame
  color : String
  locations : String
  colorScale : String
  featureidkey : String
deriving DecidableEq, Repr

/-- A plotly figure, reduced to the attributes the handlers set. -/
structure Figure where
  plotBgcolor : Option String := none
  xTickLabelsHidden : Bool := false
  yTickLabelsHidden : Bool := false
  annotTexts : List String := []
  choro : Option ChoroplethSpec := none
  projectionType : Option String := none
  fitbounds : Option String := none
  marginStripped : Bool := false
deriving DecidableEq, Repr

/-- Default annotation text of `server._clear_fig`. -/
def defaultClearText : String :=
  "Choose 2 columns and click the view button to compare."

/-- `server._clear_fig`: white background, hidden tick labels, and one
centred annotation whose text defaults to the instructional prompt. -/
def clear_fig (fig : Option Figure := none)
    (text : String := defaultClearText) : Figure :=
  let f := fig.getD {}
  { f with plotBgcolor := some "white"
           xTickLabelsHidden := true
           yTickLabelsHidden := true
           annotTexts := f.annotTexts ++ [text] }

/-- Python `pd.DataFrame(table_data).astype(dtypes)`, with pandas'
per-column cast modelled by the per-cell oracle `coerce`. -/
def astype (coerce : Dtype → Cell → Cell) (dtypes : List (String × Dtype))
    (table : List Row) : List Row :=
  table.map fun row =>
    row.map fun kv =>
      match dtypes.lookup kv.1 with
      | some d => (kv.1, coerce d kv.2)
      | none => kv

/-- What `server.display_choropleth` returns: normally the
`(figure, loading-text)` pair; `single` models the malformed lone-figure
return of the unreachable `len(columns) > 2` branch. -/
inductive ViewResult
  | pair (fig : Figure) (loading : String)
  | single (fig : Figure)
deriving DecidableEq, Repr

/-- `server.display_choropleth`, guard for guard in source order:
1. `columns is None or len(columns) != 2 or data_frame is None` →
   `(_clear_fig(), "")`;
2. `len(columns) > 2` → lone `_clear_fig(text=...)` (unreachable: the
   previous guard already returned whenever the length is not 2);
3. `columns[0] is None or columns[1] is None or columns[0] == columns[1]`
   → `(_clear_fig(), "")`;
4. a second `columns[0] == columns[1]` check (also unreachable);
then the coerced table frame, the `[color, location, "geometry"]`
subselection (`KeyError` → `(_clear_fig(), "")`), and the choropleth
figure with orthographic projection, fitted bounds and stripped margins. -/
def display_choropleth (coerce : Dtype → Cell → Cell) (g : GeoJsonFile)
    (columns : Option (List (Option String))) (table_data : List Row) :
    ViewResult :=
  match columns, g.data_frame with
  | none, _ => .pair (clear_fig) ""
  | some _, none => .pair (clear_fig) ""
  | some cols, some df =>
    if cols.length ≠ 2 then .pair (clear_fig) ""
    else if cols.length > 2 then
      .single (clear_fig none "You should select only 2 data keys.")
    else if cols.getD 0 none = none ∨ cols.getD 1 none = none ∨
        cols.getD 0 none = cols.getD 1 none then
      .pair (clear_fig) ""
    else if cols.getD 0 none = cols.getD 1 none then
      .pair (clear_fig none "Columns must be different") ""
    else
      let location := (cols.getD 0 none).getD ""
      let color := (cols.getD 1 none).getD ""
      let data_frame := astype coerce g.dtypes table_data
      match df.select [color, location, "geometry"] with
      | .error _ => .pair (clear_fig) ""
      | .ok sub =>
          .pair
            { choro := some
                { data := data_frame
                  geojson := sub
                  color := color
                  locations := location
                  colorScale := "Viridis"
                  featureidkey := "properties." ++ location }
              projectionType := some "orthographic"
              fitbounds := some "locations"
              marginStripped := true }
            ""

/-- The combined dataset `server.save_data` serializes: grid values
coerced to the original dtypes, plus the original geometry column and
original CRS. -/
structure SaveFrame where
  table : List Row
  geometry : List Cell
  crs : String
deriving DecidableEq, Repr

/-- What the save handler hands back to Dash: `preventUpdate` models
`raise exceptions.PreventUpdate` (the no-op signal), `download` the
`dict(content=..., filename=...)` payload.  Serialization of the
`SaveFrame` to GeoJSON text through the temp-file round trip is
delegated to geopandas and kept symbolic. -/
inductive SaveOutcome
  | preventUpdate
  | download (content : SaveFrame) (filename : String)
deriving DecidableEq, Repr

/-- `server.save_data`.  `time` stands for
`datetime.now().strftime("%Y%m%dT%H%M")`.  The handler never assigns the
module-global document, so the state passes through unchanged. -/
def save_data (coerce : Dtype → Cell → Cell) (time : String)
    (g : GeoJsonFile) (table_data : List Row)
    ( table_columns : List (String × String)) :
    GeoJsonFile × SaveOutcome :=
  match g.data_frame with
  | none => (g, .preventUpdate)
  | some df =>
      let _ := table_columns
      let frame : SaveFrame :=
        { table := astype coerce g.dtypes table_data
          geometry := df.col "geometry"
          crs := df.crs }
      (g, .download frame ("geojsonviewer-" ++ time ++ ".geojson"))

/-- Which control fired the load/reset callback (`ctx.triggered_id`);
`startup` is the initial automatic invocation with no trigger. -/
inductive Trigger
  | loadButton
  | resetButton
  | upload
  | startup
deriving DecidableEq, Repr

/-- The output tuple of `server.create_columns`: dropdown options,
status-line text, edit-tab view box, disabled flags of the reset and
save buttons, echoed URL-field value, and the fresh placeholder figure. -/
structure ColumnsOutput where
  options : List String
  statusMsg : String
  viewbox : ViewBox
  resetDisabled : Bool
  saveDisabled : Bool
  urlValue : String
  graphFig : Figure
deriving DecidableEq, Repr

/-- `server.create_columns`.  Mirrors the source: the both-`None` early
return; then, when the trigger is the load button or an upload payload
is present, null out the input not matching the trigger, clear the
document and attempt `load_geojson` (on failure the document stays empty
and the fixed error message is set); finally derive options and button
state from the resulting document.  The reset button has no branch of
its own. -/
def create_columns (hasNS : String → Bool) (absPath : String → String)
    (decode : String → Except String String)
    (readFile : ReadSource → Except String GeoDataFrame)
    (trigger : Trigger) (geojson_file upload_content : Option String)
    (g : GeoJsonFile) : GeoJsonFile × ColumnsOutput :=
  match geojson_file, upload_content with
  | none, none =>
      (g, { options := []
            statusMsg := ""
            viewbox := g.to_viewbox
            resetDisabled := true
            saveDisabled := true
            urlValue := ""
            graphFig := clear_fig })
  | gf0, uc0 =>
      let step : GeoJsonFile × Option String × String :=
        if trigger = Trigger.loadButton ∨ uc0.isSome then
          let gf1 := if trigger = Trigger.loadButton then gf0 else none
          let uc1 := if trigger = Trigger.loadButton then none else uc0
          match load_geojson hasNS absPath decode readFile gf1 uc1 with
          | .ok df => ({ data_frame := some df }, gf1, "")
          | .error _ =>
              ({ data_frame := none }, gf1,
               "Error: Could not load data content")
        else
          (g, gf0, "")
      let g1 := step.1
      let opts : List String × Bool :=
        match g1.data_frame with
        | none => ([], true)
        | some df => (df.columns.filter fun c => c ≠ "geometry", false)
      (g1, { options := opts.1
             statusMsg := step.2.2
             viewbox := g1.to_viewbox
             resetDisabled := opts.2
             saveDisabled := opts.2
             urlValue := step.2.1.getD ""
             graphFig := clear_fig })

/-! Concrete fixtures used by closed counterexamples and witnesses. -/

/-- A small loaded frame: two attribute columns plus geometry. -/
def dfEx : GeoDataFrame :=
  { columns := ["name", "pop", "geometry"]
    colData :=
      [("name", [Cell.str "A", Cell.str "B"]),
       ("pop", [Cell.int 1, Cell.int 2]),
       ("geometry", [Cell.str "POINT(0 0)", Cell.str "POINT(1 1)"])]
    colDtype := [("name", "object"), ("pop", "int64"),
                 ("geometry", "geometry")]
    crs := "EPSG:4326" }

/-- Document holder with `dfEx` loaded. -/
def gLoadedEx : GeoJsonFile := { data_frame := some dfEx }

/-- `urlparse` oracle: no input has netloc or scheme. -/
def hNSEx : String → Bool := fun _ => false

/-- Path-resolution oracle: identity. -/
def absPathEx : String → String := id

/-- Base64+UTF-8 decoding oracle: succeeds with the input unchanged. -/
def decodeEx : String → Except String String := fun s => .ok s

/-- `gp.read_file` oracle: parses every source to the fixture `dfEx`. -/
def readFileEx : ReadSource → Except String GeoDataFrame :=
  fun _ => .ok dfEx

/-- `astype` cell-cast oracle: identity. -/
def coerceEx : Dtype → Cell → Cell := fun _ c => c

/-- C10: with no dataset loaded, every derived accessor of the document
holder is total and returns its empty value: `columns` the empty list,
`dtypes` the empty mapping, and `dash_data_table_from_dataframe` the
empty row list for every requested column set. -/
theorem empty_document_accessors :
    (GeoJsonFile.mk none).columns = [] ∧
    (GeoJsonFile.mk none).dtypes = [] ∧
    ∀ cols : List String,
      (GeoJsonFile.mk none).dash_data_table_from_dataframe cols = [] :=
  ⟨rfl, rfl, fun _ => rfl⟩

/-- C6: a save event with no Document loaded performs no update: the
state passes through unchanged and the outcome is the `PreventUpdate`
no-op signal, which is never a download payload. -/
theorem save_no_document_noop (coerce : Dtype → Cell → Cell)
    (time : String) (g : GeoJsonFile) (table_data : List Row)
    (tcols : List (String × String)) (h : g.data_frame = none) :
    save_data coerce time g table_data tcols = (g, .preventUpdate) ∧
    ∀ fr fn, (save_data coerce time g table_data tcols).2 ≠
      SaveOutcome.download fr fn := by
  obtain ⟨d⟩ := g
  cases h
  exact ⟨rfl, fun fr fn hc => SaveOutcome.noConfusion hc⟩

/-- Witness for C6 at a concrete empty state. -/
theorem save_no_document_noop_witness :
    save_data coerceEx "20221001T0000" (GeoJsonFile.mk none) [] []
      = (GeoJsonFile.mk none, .preventUpdate) :=
  (save_no_document_noop coerceEx "20221001T0000" (GeoJsonFile.mk none)
    [] [] rfl).1

/-- C1: whenever a Document is loaded, the dataset built by the save
handler carries the Document's original geometry column and original
CRS, for every grid content and every coercion behaviour: edits can
only reach the non-geometry attribute values. -/
theorem save_preserves_geometry_and_crs (coerce : Dtype → Cell → Cell)
    (time : String) (g : GeoJsonFile) (df : GeoDataFrame)
    (table_data : List Row) (tcols : List (String × String))
    (h : g.data_frame = some df) :
    ∃ fr fn, (save_data coerce time g table_data tcols).2 =
        SaveOutcome.download fr fn ∧
      fr.geometry = df.col "geometry" ∧ fr.crs = df.crs ∧
      fr.table = astype coerce g.dtypes table_data := by
  obtain ⟨d⟩ := g
  cases h
  exact ⟨_, _, rfl, rfl, rfl, rfl⟩

/-- Witness for C1: saving the loaded fixture with an edited grid keeps
the fixture's geometry and CRS. -/
theorem save_preserves_geometry_and_crs_witness :
    ∃ fr fn,
      (save_data coerceEx "20221001T0000" gLoadedEx
          [[("name", Cell.str "Z"), ("pop", Cell.int 9)]] []).2 =
        SaveOutcome.download fr fn ∧
      fr.geometry = dfEx.col "geometry" ∧ fr.crs = dfEx.crs ∧
      fr.table = astype coerceEx gLoadedEx.dtypes
        [[("name", Cell.str "Z"), ("pop", Cell.int 9)]] :=
  save_preserves_geometry_and_crs coerceEx "20221001T0000" gLoadedEx dfEx
    [[("name", Cell.str "Z"), ("pop", Cell.int 9)]] [] rfl

/-- C7 counterexample: with both arguments `None` the loader does reach
the `gp.read_file` primitive — the computed content is the empty string
and the loader returns exactly what the primitive returns on it (here an
oracle that reports having been invoked). -/
theorem load_both_none_invokes_read_primitive :
    load_geojson_source hNSEx absPathEx decodeEx none none
      = Except.ok (ReadSource.path "") ∧
    load_geojson hNSEx absPathEx decodeEx
        (fun _ => Except.error "gp.read_file invoked") none none
      = Except.error "gp.read_file invoked" :=
  ⟨rfl, rfl⟩

/-- C7 amended: when both the path/URL argument and the upload-content
argument are null, the loader raises nothing itself but does call the
file-reading primitive, passing it the empty string as the content. -/
theorem load_both_none_reads_empty_path (hNS : String → Bool)
    (absPath : String → String) (decode : String → Except String String)
    (readFile : ReadSource → Except String GeoDataFrame) :
    load_geojson hNS absPath decode readFile none none
      = readFile (ReadSource.path "") :=
  rfl

/-- C8 counterexample: a payload with a second separator is not decoded
from everything after the first separator — the two-way unpacking of
`content.split(",")` fails with a `ValueError` instead, even though the
decoding oracle itself would have succeeded on `"b,c"`. -/
theorem upload_extra_separator_errors :
    read_upload_content decodeEx "a,b,c"
      = Except.error "ValueError: unpacking content.split" ∧
    decodeEx "b,c" = Except.ok "b,c" ∧
    (read_upload_content decodeEx "a,b,c").isOk = false :=
  ⟨rfl, rfl, by decide⟩

/-- A comma-free character list is split into a single part. -/
theorem splitComma_of_not_mem {l : List Char} (h : ',' ∉ l) :
    splitComma l = [l] := by
  induction l with
  | nil => rfl
  | cons c rest ih =>
      have hc : c ≠ ',' := fun hc => h (hc ▸ List.mem_cons_self c rest)
      have hrest : ',' ∉ rest := fun hm => h (List.mem_cons_of_mem c hm)
      simp [splitComma, hc, ih hrest]

/-- Splitting at the first comma after a comma-free block peels that
block off as the first part. -/
theorem splitComma_append {s : List Char} (t : List Char)
    (h : ',' ∉ s) : splitComma (s ++ ',' :: t) = s :: splitComma t := by
  induction s with
  | nil => simp [splitComma]
  | cons c rest ih =>
      have hc : c ≠ ',' := fun hc => h (hc ▸ List.mem_cons_self c rest)
      have hrest : ',' ∉ rest := fun hm => h (List.mem_cons_of_mem c hm)
      simp [splitComma, hc, ih hrest]

/-- Rebuilding a string from its character data is the identity. -/
theorem string_mk_data (s : String) : String.mk s.data = s := by
  cases s
  rfl

/-- C8 amended: the decoder requires exactly one separator; on a payload
of the form `prefixPart ++ "," ++ rest` where neither side contains a
further separator, it discards the part before the separator and applies
the base64/UTF-8 decoding primitive to the part after it. -/
theorem upload_single_separator_decodes
    (decode : String → Except String String) (s t : String)
    (hs : ',' ∉ s.data) (ht : ',' ∉ t.data) :
    read_upload_content decode (s ++ "," ++ t) = decode t := by
  have hdata : (s ++ "," ++ t).data = s.data ++ ',' :: t.data := by
    simp [String.data_append]
  simp only [read_upload_content, hdata, splitComma_append _ hs,
    splitComma_of_not_mem ht, List.map, string_mk_data]

/-- Witness for C8 amended: a MIME prefix plus one separator plus a
base64 body is decoded from the body. -/
theorem upload_single_separator_decodes_witness :
    read_upload_content decodeEx
        ("data:application/json;base64" ++ "," ++ "eyJ9")
      = decodeEx "eyJ9" :=
  upload_single_separator_decodes decodeEx
    "data:application/json;base64" "eyJ9" (by decide) (by decide)

/-- C2: a reset-button trigger on a state with a loaded Document and the
URL field still holding the loaded path takes neither the early-return
branch (the URL field is non-null) nor the load branch (the trigger is
not the load button and no upload payload is present): the Document
stays loaded and the handler returns its full column list with the save
and reset buttons enabled — the reset button never clears anything. -/
theorem reset_after_load_keeps_document :
    (create_columns hNSEx absPathEx decodeEx readFileEx .resetButton
        (some "f.geojson") none gLoadedEx).1 = gLoadedEx ∧
    (create_columns hNSEx absPathEx decodeEx readFileEx .resetButton
        (some "f.geojson") none gLoadedEx).2.options = ["name", "pop"] ∧
    (create_columns hNSEx absPathEx decodeEx readFileEx .resetButton
        (some "f.geojson") none gLoadedEx).2.resetDisabled = false ∧
    (create_columns hNSEx absPathEx decodeEx readFileEx .resetButton
        (some "f.geojson") none gLoadedEx).2.saveDisabled = false := by
  refine ⟨rfl, by decide, by decide, by decide⟩

/-- C3: with a Document loaded and three columns selected, the view
handler returns the default idle figure whose single annotation is the
instructional prompt, not the "select only 2" message: the
`len(columns) != 2` guard fires first, so the `len(columns) > 2` branch
carrying that message is unreachable. -/
theorem view_three_columns_shows_default_prompt :
    display_choropleth coerceEx gLoadedEx
        (some [some "name", some "pop", some "extra"]) []
      = ViewResult.pair (clear_fig) "" ∧
    (clear_fig).annotTexts = [defaultClearText] ∧
    defaultClearText ≠ "You should select only 2 data keys." := by
  refine ⟨by decide, by decide, by decide⟩

/-- C4 counterexample: selecting the same column twice with a Document
loaded returns the default idle figure, which is not unannotated — it
carries the instructional prompt annotation. -/
theorem view_same_column_fig_is_annotated :
    display_choropleth coerceEx gLoadedEx
        (some [some "name", some "name"]) []
      = ViewResult.pair (clear_fig) "" ∧
    (clear_fig).annotTexts ≠ [] := by
  refine ⟨by decide, by decide⟩

/-- C4 amended: for every view event whose selection is null, has fewer
than two entries, contains a null entry, or repeats an entry, the
handler returns the default idle figure annotated with the instructional
prompt (identical on every repetition, and the handler never touches the
document state). -/
theorem view_degenerate_idle (coerce : Dtype → Cell → Cell)
    (g : GeoJsonFile) (ocols : Option (List (Option String)))
    (table_data : List Row)
    (h : ocols = none ∨ ∃ l, ocols = some l ∧
      (l.length < 2 ∨ none ∈ l ∨ ¬ l.Nodup)) :
    display_choropleth coerce g ocols table_data
      = ViewResult.pair (clear_fig) "" := by
  rcases h with h | ⟨l, rfl, hl⟩
  · subst h
    cases g.data_frame <;> rfl
  · cases hdf : g.data_frame with
    | none => simp [display_choropleth, hdf]
    | some df =>
        match l, hl with
        | [], _ => simp [display_choropleth, hdf]
        | [a], _ => simp [display_choropleth, hdf]
        | a :: b :: c :: rest, _ => simp [display_choropleth, hdf]
        | [a, b], h2 =>
            rcases h2 with h2 | h2 | h2
            · simp at h2
            · rcases List.mem_pair.mp h2 with rfl | rfl
              · simp [display_choropleth, hdf]
              · simp [display_choropleth, hdf]
            · have hab : a = b := by
                by_contra hne
                exact h2 (by simp [List.nodup_cons, hne])
              subst hab
              simp [display_choropleth, hdf]

/-- Witness for C4 amended at a duplicated concrete selection. -/
theorem view_degenerate_idle_witness :
    display_choropleth coerceEx (GeoJsonFile.mk none)
        (some [some "x", some "x"]) []
      = ViewResult.pair (clear_fig) "" :=
  view_degenerate_idle coerceEx (GeoJsonFile.mk none)
    (some [some "x", some "x"]) []
    (Or.inr ⟨[some "x", some "x"], rfl, Or.inr (Or.inr (by decide))⟩)

/-- C5: when both the URL text and an upload payload are non-null, a
load-button trigger behaves exactly as if the upload payload were null
and loads from the URL text, while an upload trigger behaves exactly as
if the URL text were null and loads from the decoded upload payload. -/
theorem create_columns_trigger_routing (hNS : String → Bool)
    (absPath : String → String) (decode : String → Except String String)
    (readFile : ReadSource → Except String GeoDataFrame)
    (url pay : String) (g : GeoJsonFile) :
    (create_columns hNS absPath decode readFile .loadButton
        (some url) (some pay) g
      = create_columns hNS absPath decode readFile .loadButton
        (some url) none g) ∧
    ((create_columns hNS absPath decode readFile .loadButton
        (some url) (some pay) g).1.data_frame
      = (load_geojson hNS absPath decode readFile
          (some url) none).toOption) ∧
    (create_columns hNS absPath decode readFile .upload
        (some url) (some pay) g
      = create_columns hNS absPath decode readFile .upload
        none (some pay) g) ∧
    ((create_columns hNS absPath decode readFile .upload
        (some url) (some pay) g).1.data_frame
      = (load_geojson hNS absPath decode readFile
          none (some pay)).toOption) := by
  refine ⟨rfl, ?_, rfl, ?_⟩
  · cases hL : load_geojson hNS absPath decode readFile (some url) none with
    | ok df => simp [create_columns, hL, Except.toOption]
    | error e => simp [create_columns, hL, Except.toOption]
  · cases hL : load_geojson hNS absPath decode readFile none (some pay) with
    | ok df => simp [create_columns, hL, Except.toOption]
    | error e => simp [create_columns, hL, Except.toOption]

/-- C9: after a load-button event whose load succeeds with frame `df`,
the dropdown options are exactly `df`'s non-geometry column names in
their original order (they agree with the `GeoJsonFile.columns`
accessor, contain precisely the non-geometry names, and are a sublist of
the original column order). -/
theorem load_success_columns (hNS : String → Bool)
    (absPath : String → String) (decode : String → Except String String)
    (readFile : ReadSource → Except String GeoDataFrame) (url : String)
    (uc : Option String) (g : GeoJsonFile) (df : GeoDataFrame)
    (h : load_geojson hNS absPath decode readFile (some url) none
      = .ok df) :
    (create_columns hNS absPath decode readFile .loadButton
        (some url) uc g).1 = { data_frame := some df } ∧
    (create_columns hNS absPath decode readFile .loadButton
        (some url) uc g).2.options
      = df.columns.filter (fun c => c ≠ "geometry") ∧
    GeoJsonFile.columns (create_columns hNS absPath decode readFile
        .loadButton (some url) uc g).1
      = (create_columns hNS absPath decode readFile .loadButton
        (some url) uc g).2.options ∧
    (∀ c, c ∈ (create_columns hNS absPath decode readFile .loadButton
        (some url) uc g).2.options ↔ c ∈ df.columns ∧ c ≠ "geometry") ∧
    List.Sublist ((create_columns hNS absPath decode readFile .loadButton
        (some url) uc g).2.options) df.columns := by
  have key : create_columns hNS absPath decode readFile .loadButton
      (some url) uc g
      = ({ data_frame := some df },
         { options := df.columns.filter fun c => c ≠ "geometry"
           statusMsg := ""
           viewbox := GeoJsonFile.to_viewbox { data_frame := some df }
           resetDisabled := false
           saveDisabled := false
           urlValue := url
           graphFig := clear_fig }) := by
    cases uc <;> simp [create_columns, h]
  refine ⟨?_, ?_, ?_, ?_, ?_⟩
  · rw [key]
  · rw [key]
  · rw [key]
    simp [GeoJsonFile.columns]
  · intro c
    rw [key]
    simp [List.mem_filter]
  · rw [key]
    exact List.filter_sublist _

/-- Witness for C9: loading the fixture path yields exactly its two
non-geometry columns, in order. -/
theorem load_success_columns_witness :
    (create_columns hNSEx absPathEx decodeEx readFileEx .loadButton
        (some "f.geojson") none (GeoJsonFile.mk none)).2.options
      = ["name", "pop"] := by
  have h := (load_success_columns hNSEx absPathEx decodeEx readFileEx
    "f.geojson" none (GeoJsonFile.mk none) dfEx (by rfl)).2.1
  rw [h]
  decide
